import Mathlib

/-!
Shallow embedding of `src/ts/connector/statemachine-connector.ts` (the
StateMachine connector of jsPlumb): the segment classifier `_segment`, the
control point solver `_findControlPoint`, the margin adjustment and curve
descriptor emission of `_computeBezier`, and the constructor defaults.

Numbers are modelled as rationals.  The only appearance of `Math.sqrt` in the
source is the comparison `Math.sqrt(q) <= proximityLimit` inside
`_computeBezier`; it is embedded square-free as
`0 ≤ proximityLimit ∧ q ≤ proximityLimit ^ 2`, which the lemma
`distanceWithinLimit_iff_sqrt_le` proves equivalent over the reals.
A function that can return `undefined` in JavaScript (falling off the end of
`_findControlPoint` for a segment value outside 1–4) returns an `Option`.
-/

/-- Anchor position array as the source documents it:
index 0 absolute x, 1 absolute y, 2 proportional x, 3 proportional y. -/
structure AnchorPos where
  absX : ℚ
  absY : ℚ
  propX : ℚ
  propY : ℚ
  deriving DecidableEq, Repr

/-- Embedding of `_segment (x1, y1, x2, y2)`: nested if/else with the exact
precedence of the source (lines 9–20). -/
def _segment (x1 y1 x2 y2 : ℚ) : ℤ :=
  if x1 ≤ x2 ∧ y2 ≤ y1 then 1
  else if x1 ≤ x2 ∧ y1 ≤ y2 then 2
  else if x2 ≤ x1 ∧ y2 ≥ y1 then 3
  else 4

/-- Embedding of the per-segment dispatch of `_findControlPoint` (source lines
43–86), the part after the proximity fallback.  The source's
`if (segment === 1) … else if (segment === 2) … else if (segment === 3) …
else if (segment === 4) …` chain is rendered as a match on the integer; a
segment value outside 1–4 falls off the end of the JavaScript function
(returns `undefined`), embedded as `none`.  `sourceEdge[2]` is
`sourceEdge.propX`, `sourceEdge[3]` is `sourceEdge.propY`, likewise for
`targetEdge`. -/
def _findControlPointCore (midx midy : ℚ) (segment : ℤ) (sourceEdge targetEdge : AnchorPos)
    (dx dy : ℚ) : Option (ℚ × ℚ) :=
  match segment with
  | 1 =>
    if sourceEdge.propY ≤ 0 ∧ targetEdge.propY ≥ 1 then
      some (midx + (if sourceEdge.propX < 1/2 then -1 * dx else dx), midy)
    else if sourceEdge.propX ≥ 1 ∧ targetEdge.propX ≤ 0 then
      some (midx, midy + (if sourceEdge.propY < 1/2 then -1 * dy else dy))
    else
      some (midx + -1 * dx, midy + -1 * dy)
  | 2 =>
    if sourceEdge.propY ≥ 1 ∧ targetEdge.propY ≤ 0 then
      some (midx + (if sourceEdge.propX < 1/2 then -1 * dx else dx), midy)
    else if sourceEdge.propX ≥ 1 ∧ targetEdge.propX ≤ 0 then
      some (midx, midy + (if sourceEdge.propY < 1/2 then -1 * dy else dy))
    else
      some (midx + dx, midy + -1 * dy)
  | 3 =>
    if sourceEdge.propY ≥ 1 ∧ targetEdge.propY ≤ 0 then
      some (midx + (if sourceEdge.propX < 1/2 then -1 * dx else dx), midy)
    else if sourceEdge.propX ≤ 0 ∧ targetEdge.propX ≥ 1 then
      some (midx, midy + (if sourceEdge.propY < 1/2 then -1 * dy else dy))
    else
      some (midx + -1 * dx, midy + -1 * dy)
  | 4 =>
    if sourceEdge.propY ≤ 0 ∧ targetEdge.propY ≥ 1 then
      some (midx + (if sourceEdge.propX < 1/2 then -1 * dx else dx), midy)
    else if sourceEdge.propX ≤ 0 ∧ targetEdge.propX ≥ 1 then
      some (midx, midy + (if sourceEdge.propY < 1/2 then -1 * dy else dy))
    else
      some (midx + dx, midy + -1 * dy)
  | _ => none

/-- Embedding of `_findControlPoint` (source lines 36–87): the proximity
fallback at lines 39–41 followed by the per-segment dispatch. -/
def _findControlPoint (midx midy : ℚ) (segment : ℤ) (sourceEdge targetEdge : AnchorPos)
    (dx dy distance proximityLimit : ℚ) : Option (ℚ × ℚ) :=
  if distance ≤ proximityLimit then
    some (midx, midy)
  else
    _findControlPointCore midx midy segment sourceEdge targetEdge dx dy

/-- Square-free embedding of the comparison
`Math.sqrt(distSq) <= proximityLimit` used by `_computeBezier`:
over the reals, `sqrt s ≤ p` holds exactly when `0 ≤ p ∧ s ≤ p ^ 2`
(see `distanceWithinLimit_iff_sqrt_le`). -/
def distanceWithinLimit (distSq proximityLimit : ℚ) : Prop :=
  0 ≤ proximityLimit ∧ distSq ≤ proximityLimit ^ 2

instance (s p : ℚ) : Decidable (distanceWithinLimit s p) := by
  unfold distanceWithinLimit
  infer_instance

/-- Justification of the square-free embedding of the proximity check. -/
theorem distanceWithinLimit_iff_sqrt_le (s p : ℚ) :
    distanceWithinLimit s p ↔ Real.sqrt (s : ℝ) ≤ (p : ℝ) := by
  rw [Real.sqrt_le_iff]
  unfold distanceWithinLimit
  constructor
  · rintro ⟨h1, h2⟩
    exact ⟨by exact_mod_cast h1, by exact_mod_cast h2⟩
  · rintro ⟨h1, h2⟩
    exact ⟨by exact_mod_cast h1, by exact_mod_cast h2⟩

/-- Constructor options of the StateMachine connector, each possibly absent
(JavaScript `undefined` is `none`). -/
structure StateMachineOptions where
  curviness : Option ℚ := none
  margin : Option ℚ := none
  proximityLimit : Option ℚ := none
  orientation : Option String := none
  deriving DecidableEq, Repr

/-- JavaScript `v || d` for a numeric option: the default `d` when `v` is
absent or falsy (the one falsy rational is 0), else `v`. -/
def orDefault (v : Option ℚ) (d : ℚ) : ℚ :=
  match v with
  | none => d
  | some x => if x = 0 then d else x

/-- Configuration fields the constructor stores on the connector. -/
structure StateMachineConfig where
  curviness : ℚ
  margin : ℚ
  proximityLimit : ℚ
  clockwise : Bool
  deriving DecidableEq, Repr

/-- Embedding of the `StateMachine` constructor body (source lines 98–105):
`params.curviness || 10`, `params.margin || 5`, `params.proximityLimit || 80`,
and `params.orientation && params.orientation === "clockwise"` stored as a
boolean. -/
def mkStateMachine (params : StateMachineOptions) : StateMachineConfig :=
  { curviness := orDefault params.curviness 10
    margin := orDefault params.margin 5
    proximityLimit := orDefault params.proximityLimit 80
    clockwise := params.orientation == some "clockwise" }

/-- Margin adjustment of one corner coordinate (source lines 113–137: two
independent `if` statements per coordinate, `prop === 0` subtracts the
margin, `prop === 1` adds it). -/
def adjustForMargin (coord prop margin : ℚ) : ℚ :=
  let c1 := if prop = 0 then coord - margin else coord
  if prop = 1 then c1 + margin else c1

/-- Corner derivation and margin adjustment of `_computeBezier` (source lines
108–137), returned as `(_sx, _sy, _tx, _ty)`. -/
def adjustedCorners (cfg : StateMachineConfig) (sourcePos targetPos : AnchorPos)
    (w h : ℚ) : ℚ × ℚ × ℚ × ℚ :=
  (adjustForMargin (if sourcePos.absX < targetPos.absX then 0 else w) sourcePos.propX cfg.margin,
   adjustForMargin (if sourcePos.absY < targetPos.absY then 0 else h) sourcePos.propY cfg.margin,
   adjustForMargin (if sourcePos.absX < targetPos.absX then w else 0) targetPos.propX cfg.margin,
   adjustForMargin (if sourcePos.absY < targetPos.absY then h else 0) targetPos.propY cfg.margin)

/-- The control point `_computeBezier` solves for (source lines 159–175):
midpoint, segment and distance of the adjusted corners fed to
`_findControlPoint`; the `Math.sqrt` comparison is embedded square-free via
`distanceWithinLimit`. -/
def solvedControlPoint (cfg : StateMachineConfig) (sourcePos targetPos : AnchorPos)
    (w h : ℚ) : Option (ℚ × ℚ) :=
  let _sx := (adjustedCorners cfg sourcePos targetPos w h).1
  let _sy := (adjustedCorners cfg sourcePos targetPos w h).2.1
  let _tx := (adjustedCorners cfg sourcePos targetPos w h).2.2.1
  let _ty := (adjustedCorners cfg sourcePos targetPos w h).2.2.2
  if distanceWithinLimit ((_tx - _sx) ^ 2 + (_ty - _sy) ^ 2) cfg.proximityLimit then
    some ((_sx + _tx) / 2, (_sy + _ty) / 2)
  else
    _findControlPointCore ((_sx + _tx) / 2) ((_sy + _ty) / 2)
      (_segment _sx _sy _tx _ty) sourcePos targetPos cfg.curviness cfg.curviness

/-- The quadratic curve descriptor `_computeBezier` passes to `_addSegment`
(source lines 182–186). -/
structure CurveDescriptor where
  x1 : ℚ
  y1 : ℚ
  x2 : ℚ
  y2 : ℚ
  cp1x : ℚ
  cp1y : ℚ
  cp2x : ℚ
  cp2y : ℚ
  deriving DecidableEq, Repr

/-- Embedding of `_computeBezier` (source lines 107–187): one descriptor with
endpoint 1 the adjusted target corner, endpoint 2 the adjusted source corner,
and both control handles the solved control point.  Reading `[0]`/`[1]` of an
`undefined` control point would throw in JavaScript; that is the `none`
propagation of `Option.map`. -/
def _computeBezier (cfg : StateMachineConfig) (sourcePos targetPos : AnchorPos)
    (w h : ℚ) : Option CurveDescriptor :=
  (solvedControlPoint cfg sourcePos targetPos w h).map fun cp =>
    { x1 := (adjustedCorners cfg sourcePos targetPos w h).2.2.1
      y1 := (adjustedCorners cfg sourcePos targetPos w h).2.2.2
      x2 := (adjustedCorners cfg sourcePos targetPos w h).1
      y2 := (adjustedCorners cfg sourcePos targetPos w h).2.1
      cp1x := cp.1
      cp1y := cp.2
      cp2x := cp.1
      cp2y := cp.2 }

/-- Rule table of spec §4.3, transcribed from the spec's words (the table
keyed by segment, each row two conditions on the anchors' proportional
positions tried in order and a default offset).  To be compared with the
source-derived `_findControlPointCore`. -/
def controlPointSpec (midx midy : ℚ) (segment : ℤ) (srcX srcY tgtX tgtY dx dy : ℚ) : ℚ × ℚ :=
  match segment with
  | 1 =>
    if srcY ≤ 0 ∧ tgtY ≥ 1 then (midx + (if srcX < 1/2 then -dx else dx), midy)
    else if srcX ≥ 1 ∧ tgtX ≤ 0 then (midx, midy + (if srcY < 1/2 then -dy else dy))
    else (midx - dx, midy - dy)
  | 2 =>
    if srcY ≥ 1 ∧ tgtY ≤ 0 then (midx + (if srcX < 1/2 then -dx else dx), midy)
    else if srcX ≥ 1 ∧ tgtX ≤ 0 then (midx, midy + (if srcY < 1/2 then -dy else dy))
    else (midx + dx, midy - dy)
  | 3 =>
    if srcY ≥ 1 ∧ tgtY ≤ 0 then (midx + (if srcX < 1/2 then -dx else dx), midy)
    else if srcX ≤ 0 ∧ tgtX ≥ 1 then (midx, midy + (if srcY < 1/2 then -dy else dy))
    else (midx - dx, midy - dy)
  | _ =>
    if srcY ≤ 0 ∧ tgtY ≥ 1 then (midx + (if srcX < 1/2 then -dx else dx), midy)
    else if srcX ≤ 0 ∧ tgtX ≥ 1 then (midx, midy + (if srcY < 1/2 then -dy else dy))
    else (midx + dx, midy - dy)

/-! Helper lemmas shared by several developments below. -/

/-- The classifier only ever returns 1, 2, 3 or 4. -/
lemma segment_mem (x1 y1 x2 y2 : ℚ) :
    _segment x1 y1 x2 y2 = 1 ∨ _segment x1 y1 x2 y2 = 2 ∨
      _segment x1 y1 x2 y2 = 3 ∨ _segment x1 y1 x2 y2 = 4 := by
  unfold _segment
  split_ifs <;> simp

/-- On segment values 1–4 the dispatch of the solver always produces a point. -/
lemma core_total (midx midy : ℚ) (segment : ℤ) (se te : AnchorPos) (dx dy : ℚ)
    (h : segment = 1 ∨ segment = 2 ∨ segment = 3 ∨ segment = 4) :
    ∃ p : ℚ × ℚ, _findControlPointCore midx midy segment se te dx dy = some p := by
  rcases h with h | h | h | h <;> subst h <;> unfold _findControlPointCore <;>
    split_ifs <;> exact ⟨_, rfl⟩

/-- The pipeline always solves a control point. -/
lemma solved_isSome (cfg : StateMachineConfig) (sp tp : AnchorPos) (w h : ℚ) :
    ∃ cp : ℚ × ℚ, solvedControlPoint cfg sp tp w h = some cp := by
  unfold solvedControlPoint
  dsimp only
  split_ifs with h1
  · exact ⟨_, rfl⟩
  · exact core_total _ _ _ _ _ _ _ (segment_mem _ _ _ _)

/-- With equal corner x coordinates the first or second rule of the
classifier fires, never the third or fourth. -/
lemma segment_diag (x1 y1 y2 : ℚ) :
    _segment x1 y1 x1 y2 = 1 ∨ _segment x1 y1 x1 y2 = 2 := by
  unfold _segment
  by_cases h : y2 ≤ y1
  · rw [if_pos ⟨le_refl x1, h⟩]
    exact Or.inl rfl
  · rw [if_neg (fun hc => h hc.2), if_pos ⟨le_refl x1, le_of_not_le h⟩]
    exact Or.inr rfl

/-!  The claim theorems. -/

/-- C2: for all rational corner coordinates, `_segment` returns exactly one of
1–4, each value characterised by the exact precedence of §4.2 (rule 1 first,
each later rule only when all earlier rules failed), and whenever `x1 = x2`
the result is 1 or 2, never 3 or 4. -/
theorem segment_totality_precedence (x1 y1 x2 y2 : ℚ) :
    (_segment x1 y1 x2 y2 = 1 ∨ _segment x1 y1 x2 y2 = 2 ∨
      _segment x1 y1 x2 y2 = 3 ∨ _segment x1 y1 x2 y2 = 4)
    ∧ (_segment x1 y1 x2 y2 = 1 ↔ x1 ≤ x2 ∧ y2 ≤ y1)
    ∧ (_segment x1 y1 x2 y2 = 2 ↔ ¬(x1 ≤ x2 ∧ y2 ≤ y1) ∧ x1 ≤ x2 ∧ y1 ≤ y2)
    ∧ (_segment x1 y1 x2 y2 = 3 ↔
        ¬(x1 ≤ x2 ∧ y2 ≤ y1) ∧ ¬(x1 ≤ x2 ∧ y1 ≤ y2) ∧ x2 ≤ x1 ∧ y1 ≤ y2)
    ∧ (_segment x1 y1 x2 y2 = 4 ↔
        ¬(x1 ≤ x2 ∧ y2 ≤ y1) ∧ ¬(x1 ≤ x2 ∧ y1 ≤ y2) ∧ ¬(x2 ≤ x1 ∧ y1 ≤ y2))
    ∧ (_segment x1 y1 x1 y2 = 1 ∨ _segment x1 y1 x1 y2 = 2) := by
  refine ⟨segment_mem x1 y1 x2 y2, ?_, ?_, ?_, ?_, segment_diag x1 y1 y2⟩ <;>
    · unfold _segment
      split_ifs <;> simp_all [ge_iff_le]

/-- C3: whenever `distance ≤ proximityLimit` the solver returns exactly the
midpoint, for every segment value and both anchors' proportional positions. -/
theorem proximity_fallback_midpoint (midx midy : ℚ) (segment : ℤ) (se te : AnchorPos)
    (dx dy distance proximityLimit : ℚ) (h : distance ≤ proximityLimit) :
    _findControlPoint midx midy segment se te dx dy distance proximityLimit
      = some (midx, midy) := by
  unfold _findControlPoint
  rw [if_pos h]

/-- Witness for C3: segment value 7 and off-centre anchors still yield the
midpoint when the distance 10 is below the limit 80. -/
theorem proximity_fallback_midpoint_witness :
    _findControlPoint 1 2 7 ⟨0, 0, 0, 0⟩ ⟨0, 0, 1, 1⟩ 3 4 10 80 = some (1, 2) :=
  proximity_fallback_midpoint 1 2 7 ⟨0, 0, 0, 0⟩ ⟨0, 0, 1, 1⟩ 3 4 10 80 (by norm_num)

/-- C5: margin adjustment per coordinate axis: proportional position exactly 0
subtracts the margin, exactly 1 adds it, and any other value, inside or
outside `[0, 1]`, leaves the coordinate unchanged (the function is total, so
no error is raised). -/
theorem margin_adjustment_boundary (coord prop margin : ℚ) :
    (prop = 0 → adjustForMargin coord prop margin = coord - margin)
    ∧ (prop = 1 → adjustForMargin coord prop margin = coord + margin)
    ∧ (prop ≠ 0 → prop ≠ 1 → adjustForMargin coord prop margin = coord) := by
  unfold adjustForMargin
  refine ⟨?_, ?_, ?_⟩
  · rintro rfl
    norm_num
  · rintro rfl
    norm_num
  · intro h0 h1
    simp only [if_neg h0, if_neg h1]

/-- C1: beyond the proximity limit the solver's result matches the §4.3 rule
table exactly for each of the four segments, the branches of each segment
tested in order on the anchors' proportional positions, first match winning. -/
theorem solver_matches_rule_table (midx midy : ℚ) (se te : AnchorPos)
    (dx dy distance proximityLimit : ℚ) (h : proximityLimit < distance) :
    (_findControlPoint midx midy 1 se te dx dy distance proximityLimit
        = some (controlPointSpec midx midy 1 se.propX se.propY te.propX te.propY dx dy))
    ∧ (_findControlPoint midx midy 2 se te dx dy distance proximityLimit
        = some (controlPointSpec midx midy 2 se.propX se.propY te.propX te.propY dx dy))
    ∧ (_findControlPoint midx midy 3 se te dx dy distance proximityLimit
        = some (controlPointSpec midx midy 3 se.propX se.propY te.propX te.propY dx dy))
    ∧ (_findControlPoint midx midy 4 se te dx dy distance proximityLimit
        = some (controlPointSpec midx midy 4 se.propX se.propY te.propX te.propY dx dy)) := by
  have hd : ¬ distance ≤ proximityLimit := not_le.2 h
  refine ⟨?_, ?_, ?_, ?_⟩ <;>
    · simp only [_findControlPoint, if_neg hd, _findControlPointCore, controlPointSpec]
      split_ifs <;>
        first
          | rfl
          | (simp only [Option.some.injEq, Prod.mk.injEq]
             constructor <;> first | trivial | ring1)

/-- Witness for C1 at a concrete input beyond the proximity limit. -/
theorem solver_matches_rule_table_witness :
    (_findControlPoint 0 0 1 ⟨0, 0, 1/4, 1/4⟩ ⟨0, 0, 3/4, 3/4⟩ 3 4 100 80
        = some (controlPointSpec 0 0 1 (1/4) (1/4) (3/4) (3/4) 3 4))
    ∧ (_findControlPoint 0 0 2 ⟨0, 0, 1/4, 1/4⟩ ⟨0, 0, 3/4, 3/4⟩ 3 4 100 80
        = some (controlPointSpec 0 0 2 (1/4) (1/4) (3/4) (3/4) 3 4))
    ∧ (_findControlPoint 0 0 3 ⟨0, 0, 1/4, 1/4⟩ ⟨0, 0, 3/4, 3/4⟩ 3 4 100 80
        = some (controlPointSpec 0 0 3 (1/4) (1/4) (3/4) (3/4) 3 4))
    ∧ (_findControlPoint 0 0 4 ⟨0, 0, 1/4, 1/4⟩ ⟨0, 0, 3/4, 3/4⟩ 3 4 100 80
        = some (controlPointSpec 0 0 4 (1/4) (1/4) (3/4) (3/4) 3 4)) :=
  solver_matches_rule_table 0 0 ⟨0, 0, 1/4, 1/4⟩ ⟨0, 0, 3/4, 3/4⟩ 3 4 100 80 (by norm_num)

/-- C4: beyond the proximity limit, with both offsets equal to `curviness`,
each coordinate of the solved control point differs from the corresponding
midpoint coordinate by exactly 0, `curviness` or `-curviness`, for every
segment value 1–4. -/
theorem bounded_offset (midx midy : ℚ) (segment : ℤ) (se te : AnchorPos)
    (curviness distance proximityLimit : ℚ)
    (h1 : proximityLimit < distance)
    (h2 : segment = 1 ∨ segment = 2 ∨ segment = 3 ∨ segment = 4) :
    ∃ p : ℚ × ℚ,
      _findControlPoint midx midy segment se te curviness curviness distance proximityLimit
        = some p
      ∧ (p.1 - midx = 0 ∨ p.1 - midx = curviness ∨ p.1 - midx = -curviness)
      ∧ (p.2 - midy = 0 ∨ p.2 - midy = curviness ∨ p.2 - midy = -curviness) := by
  have hd : ¬ distance ≤ proximityLimit := not_le.2 h1
  rcases h2 with h | h | h | h <;> subst h <;>
    simp only [_findControlPoint, if_neg hd, _findControlPointCore] <;>
    split_ifs <;>
    refine ⟨_, rfl, ?_, ?_⟩ <;> dsimp only <;>
      first
        | (left ; ring1)
        | (right ; left ; ring1)
        | (right ; right ; ring1)

/-- Witness for C4: segment 2 with anchors matching no special condition
yields the default diagonal offset `(+curviness, -curviness)`. -/
theorem bounded_offset_witness :
    ∃ p : ℚ × ℚ,
      _findControlPoint 0 0 2 ⟨0, 0, 1/2, 1/2⟩ ⟨0, 0, 1/2, 1/2⟩ 10 10 100 80 = some p
      ∧ (p.1 - 0 = 0 ∨ p.1 - 0 = 10 ∨ p.1 - 0 = -10)
      ∧ (p.2 - 0 = 0 ∨ p.2 - 0 = 10 ∨ p.2 - 0 = -10) :=
  bounded_offset 0 0 2 ⟨0, 0, 1/2, 1/2⟩ ⟨0, 0, 1/2, 1/2⟩ 10 100 80 (by norm_num)
    (Or.inr (Or.inl rfl))

/-- C6: every invocation of the compute step emits exactly one quadratic curve
descriptor whose endpoint 1 is the margin-adjusted target corner, endpoint 2
the margin-adjusted source corner, and whose two control handles both equal
the single solved control point. -/
theorem descriptor_emission (cfg : StateMachineConfig) (sp tp : AnchorPos) (w h : ℚ) :
    ∃ cp : ℚ × ℚ,
      solvedControlPoint cfg sp tp w h = some cp
      ∧ _computeBezier cfg sp tp w h = some
          { x1 := (adjustedCorners cfg sp tp w h).2.2.1
            y1 := (adjustedCorners cfg sp tp w h).2.2.2
            x2 := (adjustedCorners cfg sp tp w h).1
            y2 := (adjustedCorners cfg sp tp w h).2.1
            cp1x := cp.1
            cp1y := cp.2
            cp2x := cp.1
            cp2y := cp.2 } := by
  obtain ⟨cp, hcp⟩ := solved_isSome cfg sp tp w h
  refine ⟨cp, hcp, ?_⟩
  unfold _computeBezier
  rw [hcp]
  rfl

/-- C7: scenario A of §8 end to end: source anchor `(0, 0, 0, 0)`, target
anchor `(200, 100, 1, 1)`, box 50 × 30, margin 5, curviness 10, proximity
limit 80 give adjusted corners `(-5, -5)` and `(55, 35)`, segment 2, squared
distance 5200 within the limit, control point `(25, 15)`, and a descriptor
with endpoints `(55, 35)` then `(-5, -5)` and both handles `(25, 15)`. -/
theorem scenario_proximity_pipeline :
    adjustedCorners (mkStateMachine ⟨some 10, some 5, some 80, none⟩)
        ⟨0, 0, 0, 0⟩ ⟨200, 100, 1, 1⟩ 50 30 = (-5, -5, 55, 35)
    ∧ _segment (-5) (-5) 55 35 = 2
    ∧ ((55 : ℚ) - (-5)) ^ 2 + ((35 : ℚ) - (-5)) ^ 2 = 5200
    ∧ distanceWithinLimit 5200 80
    ∧ solvedControlPoint (mkStateMachine ⟨some 10, some 5, some 80, none⟩)
        ⟨0, 0, 0, 0⟩ ⟨200, 100, 1, 1⟩ 50 30 = some (25, 15)
    ∧ _computeBezier (mkStateMachine ⟨some 10, some 5, some 80, none⟩)
        ⟨0, 0, 0, 0⟩ ⟨200, 100, 1, 1⟩ 50 30
        = some ⟨55, 35, -5, -5, 25, 15, 25, 15⟩ := by
  norm_num [_computeBezier, solvedControlPoint, adjustedCorners, adjustForMargin,
    mkStateMachine, orDefault, _segment, _findControlPointCore, distanceWithinLimit]

/-- C8 counterexample: the solver is not total over every segment value.  For
segment value 0 (not produced by the classifier) and a distance beyond the
proximity limit, the JavaScript function falls off the end and returns
`undefined` (`none`), not a control point. -/
theorem solver_undefined_outside_range :
    _findControlPoint 0 0 0 ⟨0, 0, 0, 0⟩ ⟨0, 0, 0, 0⟩ 10 10 100 80 = none := by
  decide

/-- C8 amended: for every segment value the classifier can produce (1–4) the
solver returns a control point, whatever the anchors, offsets, distance and
proximity limit; every such segment has a default branch. -/
theorem solver_total_on_classifier_range (midx midy : ℚ) (segment : ℤ) (se te : AnchorPos)
    (dx dy distance proximityLimit : ℚ)
    (h : segment = 1 ∨ segment = 2 ∨ segment = 3 ∨ segment = 4) :
    ∃ p : ℚ × ℚ,
      _findControlPoint midx midy segment se te dx dy distance proximityLimit = some p := by
  unfold _findControlPoint
  split_ifs with hd
  · exact ⟨_, rfl⟩
  · exact core_total midx midy segment se te dx dy h

/-- Witness for the amended C8 at segment 3 beyond the proximity limit. -/
theorem solver_total_on_classifier_range_witness :
    ∃ p : ℚ × ℚ, _findControlPoint 0 0 3 ⟨0, 0, 0, 0⟩ ⟨0, 0, 0, 0⟩ 10 10 100 80 = some p :=
  solver_total_on_classifier_range 0 0 3 ⟨0, 0, 0, 0⟩ ⟨0, 0, 0, 0⟩ 10 10 100 80
    (Or.inr (Or.inr (Or.inl rfl)))

/-- C9: the orientation configuration is stored as the `clockwise` flag but
never consulted: two runs of the compute step differing only in the
orientation option solve the same control point and emit the same curve
descriptor. -/
theorem clockwise_never_consulted (opts : StateMachineOptions) (o1 o2 : Option String)
    (sp tp : AnchorPos) (w h : ℚ) :
    (mkStateMachine opts).clockwise = (opts.orientation == some "clockwise")
    ∧ solvedControlPoint (mkStateMachine { opts with orientation := o1 }) sp tp w h
        = solvedControlPoint (mkStateMachine { opts with orientation := o2 }) sp tp w h
    ∧ _computeBezier (mkStateMachine { opts with orientation := o1 }) sp tp w h
        = _computeBezier (mkStateMachine { opts with orientation := o2 }) sp tp w h :=
  ⟨rfl, rfl, rfl⟩

/-- C10: the constructor's `||`-default idiom replaces an explicit 0 (and an
absent value) for curviness, margin and proximity limit by the defaults 10, 5
and 80, so curviness can never be configured to 0. -/
theorem falsy_config_defaults (opts : StateMachineOptions) :
    (mkStateMachine { opts with curviness := some 0 }).curviness = 10
    ∧ (mkStateMachine { opts with margin := some 0 }).margin = 5
    ∧ (mkStateMachine { opts with proximityLimit := some 0 }).proximityLimit = 80
    ∧ (mkStateMachine { opts with curviness := none }).curviness = 10
    ∧ (mkStateMachine { opts with margin := none }).margin = 5
    ∧ (mkStateMachine { opts with proximityLimit := none }).proximityLimit = 80
    ∧ (mkStateMachine opts).curviness ≠ 0 := by
  refine ⟨rfl, rfl, rfl, rfl, rfl, rfl, ?_⟩
  rcases hc : opts.curviness with _ | x
  · norm_num [mkStateMachine, orDefault, hc]
  · simp only [mkStateMachine, orDefault, hc]
    split_ifs with h
    · norm_num
    · exact h
